import Mathlib

/-!
Shallow embedding of the offline synchronization and conflict-resolution
subsystem of src/scripts/a.py (polmed-e-clinic backend).

Modelling conventions:
- MySQL DATETIME values (and the client-supplied timestamp strings they are
  compared against) are modelled as integers under their total order.
- A nullable column is an Option.  SQL comparison with NULL is never true,
  so a predicate on an Option column holds only through `some`.
- DatabaseManager.execute_query has two failure channels: a mysql Error is
  caught inside and surfaces as a None result (falsy, indistinguishable in
  the callers below from an empty row set), while any other exception
  propagates to the caller.  Where a claim concerns the propagating channel
  (detect_sync_conflicts), it is modelled by explicit fault flags; the
  caught-Error channel behaves exactly like an empty result in every caller
  embedded here and is subsumed by choosing the database contents.
- Python truthiness of request fields is modelled explicitly: a missing
  field is `none`, an empty string and the integer 0 are falsy.
-/

/-- MySQL DATETIME / client timestamp strings, under their total order. -/
abbrev Timestamp := Int

/-- The change markers of a business-table row (`updated_at`, `created_at`)
read by the conflict detector; both columns are nullable. -/
structure ServerRecord where
  updated_at : Option Timestamp
  created_at : Option Timestamp
deriving DecidableEq, Repr

/-- One row of the `sync_status` ledger table (columns as in the schema used
by a.py: INSERT at lines 968-972, UPDATEs at lines 122-124 and 1022-1041). -/
structure LedgerRow where
  id : Int
  table_name : String
  record_id : Option Int
  operation_type : String
  sync_status : String
  device_id : String
  user_id : Int
  local_timestamp : Timestamp
  server_timestamp : Timestamp
  retry_count : Int
  last_retry_at : Option Timestamp
  error_message : Option String
  synced_at : Option Timestamp
deriving DecidableEq, Repr

/-- One row of the `audit_log` table as written by audit_log (a.py 407-428),
restricted to the fields RESOLVE_CONFLICT populates. -/
structure AuditEntry where
  action : String
  table_name : Option String
  record_id : Option Int
  new_resolution : Option String
  new_table_name : Option String
  new_record_id : Option Int
deriving DecidableEq, Repr

/-- Server-side storage state: business records keyed by (table, id), the
sync_status ledger, and the audit log. -/
structure ServerDB where
  records : List (String × Int × ServerRecord)
  ledger : List LedgerRow
  audit : List AuditEntry
deriving DecidableEq, Repr

/-- Exception channels of the two storage queries issued by
detect_sync_conflicts: a raised (uncaught-by-execute_query) error in the
server-version query or in the pending-operations query. -/
structure StorageFault where
  serverQueryRaises : Bool
  pendingQueryRaises : Bool
deriving DecidableEq, Repr

/-- SQL `col > value` on a nullable DATETIME column: NULL compares false. -/
def optLater (o : Option Timestamp) (l : Timestamp) : Bool :=
  match o with
  | some v => decide (l < v)
  | none => false

/-- Look up the business record with the given primary key in a table. -/
def findRecord (records : List (String × Int × ServerRecord)) (t : String) (r : Int) :
    Option ServerRecord :=
  (records.find? fun e => decide (e.1 = t ∧ e.2.1 = r)).map fun e => e.2.2

/-- Row set of the first query of detect_sync_conflicts (a.py 927-930):
SELECT updated_at, created_at FROM t WHERE id = rid AND
(updated_at > l OR created_at > l).  A NULL record_id matches no row. -/
def serverVersionRows (records : List (String × Int × ServerRecord))
    (t : String) (rid : Option Int) (l : Timestamp) : List ServerRecord :=
  match rid with
  | none => []
  | some r =>
    match findRecord records t r with
    | none => []
    | some rec =>
      if optLater rec.updated_at l || optLater rec.created_at l then [rec] else []

/-- COUNT(*) of the second query of detect_sync_conflicts (a.py 942-946):
pending ledger rows for the same (table_name, record_id) whose
local_timestamp is strictly later than this operation.  A NULL record_id
matches no row. -/
def pendingCount (ledger : List LedgerRow) (t : String) (rid : Option Int)
    (l : Timestamp) : Nat :=
  match rid with
  | none => 0
  | some r =>
    (ledger.filter fun row =>
      decide (row.table_name = t ∧ row.record_id = some r ∧
              l < row.local_timestamp ∧ row.sync_status = "Pending")).length

/-- The dict returned by detect_sync_conflicts on a conflict: its
`type` tag together with the type-specific `details` payload. -/
inductive ConflictResult where
  | newerServerVersion (server_timestamp : Option Timestamp) (local_timestamp : Timestamp)
  | concurrentModification (pending_operations : Nat)
deriving DecidableEq, Repr

/-- detect_sync_conflicts (a.py 923-958).  Step 1 reports
newer_server_version from the first query (details carry
`updated_at or created_at` and the local timestamp); only if that query
returns no row does step 2 count concurrent pending operations.  A raised
storage error in either query is caught by the enclosing handler, which
returns None (fail-open).  The operation_type argument is accepted and
unused, as in the source. -/
def detect_sync_conflicts (db : ServerDB) (fault : StorageFault)
    (table_name : String) (record_id : Option Int) (local_timestamp : Timestamp)
    (operation_type : String) : Option ConflictResult :=
  if fault.serverQueryRaises then
    none
  else
    match serverVersionRows db.records table_name record_id local_timestamp with
    | rec :: _ =>
      some (ConflictResult.newerServerVersion
        (rec.updated_at.orElse fun _ => rec.created_at) local_timestamp)
    | [] =>
      if fault.pendingQueryRaises then
        none
      else
        let c := pendingCount db.ledger table_name record_id local_timestamp
        if 0 < c then some (ConflictResult.concurrentModification c) else none

/-- One entry of the `operations` array of a batch upload request; a field
absent from the JSON object is `none`. -/
structure BatchOp where
  table_name : Option String
  record_id : Option Int
  operation_type : Option String
  local_timestamp : Option String
deriving DecidableEq, Repr

/-- Python truthiness of an optional string field: absent and empty are falsy. -/
def truthyStr (o : Option String) : Bool :=
  match o with
  | none => false
  | some s => !(s = "")

/-- Python str() of a possibly-missing value, as interpolated into the
missing-fields error message. -/
def pyStr (o : Option String) : String :=
  match o with
  | none => "None"
  | some s => s

/-- Message of the NameError raised at a.py line 878: the route
batch_sync_upload is a module-level function, and the name self is unbound
there, so evaluating self.detect_sync_conflicts raises NameError.  (Python
renders the message with quotes around the word self; they are omitted
here.) -/
def nameErrorSelf : String := "name self is not defined"

/-- The `summary` object of the batch upload response (a.py 909-914). -/
structure BatchSummary where
  processed : Nat
  failed : Nat
  conflicts : Nat
  total_operations : Nat
deriving DecidableEq, Repr

/-- An entry of the `conflicts` array of the batch upload response
(a.py 883-888). -/
structure BatchConflictEntry where
  table_name : Option String
  record_id : Option Int
  conflict_type : String
deriving DecidableEq, Repr

/-- The 200 response body of batch_sync_upload (a.py 906-917). -/
structure BatchResponse where
  success : Bool
  summary : BatchSummary
  conflicts : List BatchConflictEntry
  errors : List String
deriving DecidableEq, Repr

/-- Loop accumulator of batch_sync_upload, plus instrumentation: `handed`
records the operations passed to process_sync_operation (the Sync
Processor). -/
structure BatchAcc where
  processed : Nat
  failed : Nat
  conflicts : List BatchConflictEntry
  errors : List String
  handed : List BatchOp
deriving DecidableEq, Repr

/-- Body of the per-operation loop of batch_sync_upload (a.py 864-904).
If a required field (table_name, operation_type, local_timestamp) is falsy,
the operation is counted failed with a recorded message.  Otherwise line
878 evaluates self.detect_sync_conflicts: the name self is unbound in this
module-level route, so a NameError is raised and caught by the
per-operation handler at line 901, which counts the operation failed and
records str(op_error).  Consequently neither detect_sync_conflicts nor
process_sync_operation is ever reached from this route, no conflict entry
is ever appended, and force_overwrite is never consulted (its only read,
line 882, is unreachable). -/
def batchStep (acc : BatchAcc) (op : BatchOp) : BatchAcc :=
  if truthyStr op.table_name && truthyStr op.operation_type &&
     truthyStr op.local_timestamp then
    { acc with failed := acc.failed + 1, errors := acc.errors ++ [nameErrorSelf] }
  else
    { acc with
      failed := acc.failed + 1
      errors := acc.errors ++
        ["Missing required fields in operation for " ++ pyStr op.table_name] }

/-- batch_sync_upload (a.py 843-921).  A falsy device_id (absent is merged
with empty) or an empty operations array yields the 400 error; otherwise
every operation is folded through batchStep and the 200 body is assembled,
with the errors list capped at 10 entries.  The second component of the
result is the list of operations handed to the Sync Processor (always
empty in this code, see batchStep). -/
def batch_sync_upload (device_id : String) (operations : List BatchOp)
    (force_overwrite : Bool) : Except String (BatchResponse × List BatchOp) :=
  if device_id = "" ∨ operations = [] then
    Except.error "device_id and operations are required"
  else
    let acc := operations.foldl batchStep
      { processed := 0, failed := 0, conflicts := [], errors := [], handed := [] }
    Except.ok
      ({ success := true,
         summary := { processed := acc.processed, failed := acc.failed,
                      conflicts := acc.conflicts.length,
                      total_operations := operations.length },
         conflicts := acc.conflicts,
         errors := acc.errors.take 10 }, acc.handed)

/-- Outcome of resolve_sync_conflict (a.py 990-1057): the 400, the 404, or
the 200 response. -/
inductive ResolveResult where
  | badRequest (error : String)
  | notFound (error : String)
  | resolved (message : String)
deriving DecidableEq, Repr

/-- The ledger UPDATE of the three resolution branches (a.py 1022-1041):
SET sync_status = status, synced_at = now WHERE id = cid. -/
def setLedgerStatus (ledger : List LedgerRow) (cid : Int) (status : String)
    (now : Timestamp) : List LedgerRow :=
  ledger.map fun row =>
    if row.id = cid then { row with sync_status := status, synced_at := some now }
    else row

/-- The audit_log row written by resolve_sync_conflict (a.py 1044-1048). -/
def resolveAudit (cid : Int) (resolution : String) (cd : LedgerRow) : AuditEntry :=
  { action := "RESOLVE_CONFLICT", table_name := some "sync_status",
    record_id := some cid, new_resolution := some resolution,
    new_table_name := some cd.table_name, new_record_id := cd.record_id }

/-- resolve_sync_conflict (a.py 990-1057).  Falsy conflict_id (absent or 0)
or falsy resolution (absent or empty) yields the 400 error.  The SELECT at
line 1009 filters the ledger for id = conflict_id with sync_status
Conflict; an empty result is the 404.  Otherwise the branch selected by
the resolution string updates the ledger (an unrecognised string updates
nothing), the audit row is written from the first selected ledger row, and
the 200 message names the strategy.  merge_data is accepted by the route
and never used (the merge branch is a TODO that only updates the status). -/
def resolve_sync_conflict (db : ServerDB) (conflict_id : Option Int)
    (resolution : Option String) (now : Timestamp) : ResolveResult × ServerDB :=
  match conflict_id, resolution with
  | some cid, some res =>
    if cid = 0 ∨ res = "" then
      (ResolveResult.badRequest "conflict_id and resolution are required", db)
    else
      match db.ledger.filter
        (fun row => decide (row.id = cid ∧ row.sync_status = "Conflict")) with
      | [] => (ResolveResult.notFound "Conflict not found", db)
      | cd :: _ =>
        let ledger2 :=
          if res = "use_server" then setLedgerStatus db.ledger cid "Resolved" now
          else if res = "use_local" then setLedgerStatus db.ledger cid "Synced" now
          else if res = "merge" then setLedgerStatus db.ledger cid "Synced" now
          else db.ledger
        (ResolveResult.resolved ("Conflict resolved using " ++ res ++ " strategy"),
         { db with ledger := ledger2, audit := db.audit ++ [resolveAudit cid res cd] })
  | _, _ => (ResolveResult.badRequest "conflict_id and resolution are required", db)

/-- An operation held in the in-memory per-device queue of the sync
manager.  finalize_raises models an exception raised inside the
per-operation try of sync_device_operations (a.py 108-127) for this
operation, e.g. a propagating storage error in the finalizing UPDATE. -/
structure QueueOp where
  table_name : Option String
  operation_type : Option String
  sync_id : Option Int
  finalize_raises : Bool
deriving DecidableEq, Repr

/-- State owned by OfflineSyncManager: the per-device queue map (an
association list in dict insertion order) together with the ledger the
worker finalizes into. -/
structure SyncManagerState where
  pending_operations : List (String × List QueueOp)
  ledger : List LedgerRow
deriving DecidableEq, Repr

/-- One iteration of the loop of sync_device_operations (a.py 107-128).
If the operation raises, the exception is caught at line 127 (logged,
loop continues) and the ledger is untouched.  Otherwise
sync_patient_data/sync_visit_data are no-ops (pass) and the UPDATE at
lines 122-125 marks the row with id = sync_id Synced, stamping synced_at;
a missing sync_id compares as NULL and updates no row. -/
def syncOneOp (now : Timestamp) (ledger : List LedgerRow) (op : QueueOp) :
    List LedgerRow :=
  if op.finalize_raises then
    ledger
  else
    ledger.map fun row =>
      if some row.id = op.sync_id then
        { row with sync_status := "Synced", synced_at := some now }
      else row

/-- sync_device_operations (a.py 106-128): the per-operation loop over the
drained batch.  Every exception is caught per operation, so this function
itself never raises. -/
def sync_device_operations (now : Timestamp) (ledger : List LedgerRow)
    (ops : List QueueOp) : List LedgerRow :=
  ops.foldl (syncOneOp now) ledger

/-- The loop of process_pending_syncs (a.py 96-104) over the device map:
for each device with a nonempty queue, the first 10 operations are passed
to sync_device_operations and the queue is unconditionally replaced by the
remainder (sync_device_operations cannot raise, so the except at line 103
is dead and the replacement always happens).  Returns the new queue map,
the new ledger, and per device the batch attempted this tick. -/
def drainDevices (now : Timestamp) :
    List (String × List QueueOp) → List LedgerRow →
    List (String × List QueueOp) × List LedgerRow × List (String × List QueueOp)
  | [], ledger => ([], ledger, [])
  | (d, ops) :: rest, ledger =>
    if ops = [] then
      let r := drainDevices now rest ledger
      ((d, ops) :: r.1, r.2.1, r.2.2)
    else
      let batch := ops.take 10
      let ledger2 := sync_device_operations now ledger batch
      let r := drainDevices now rest ledger2
      ((d, ops.drop 10) :: r.1, r.2.1, (d, batch) :: r.2.2)

/-- process_pending_syncs (a.py 96-104): one tick of the Auto-Sync Worker,
holding the sync lock for the whole drain.  The second component lists,
per device, the operations processed this tick. -/
def process_pending_syncs (st : SyncManagerState) (now : Timestamp) :
    SyncManagerState × List (String × List QueueOp) :=
  let r := drainDevices now st.pending_operations st.ledger
  ({ pending_operations := r.1, ledger := r.2.1 }, r.2.2)

/-- Business record whose updated_at (200) is later than the probed local
timestamp (100); used as concrete input for the detector theorems. -/
def recNewer : ServerRecord := { updated_at := some 200, created_at := some 50 }

/-- Business record older than the probed local timestamp. -/
def recOlder : ServerRecord := { updated_at := some 90, created_at := some 10 }

/-- Pending ledger row for (patients, 42) with local_timestamp 180, later
than the probed 100. -/
def rowPend : LedgerRow :=
  { id := 9, table_name := "patients", record_id := some 42,
    operation_type := "UPDATE", sync_status := "Pending", device_id := "d2",
    user_id := 5, local_timestamp := 180, server_timestamp := 120,
    retry_count := 0, last_retry_at := none, error_message := none,
    synced_at := none }

/-- Concrete database with a newer server record and a later pending
operation for the same key: both detector checks would fire. -/
def dbDetectNewer : ServerDB :=
  { records := [("patients", 42, recNewer)], ledger := [rowPend], audit := [] }

/-- Concrete database where only the concurrent-modification check fires. -/
def dbDetectConc : ServerDB :=
  { records := [("patients", 42, recOlder)], ledger := [rowPend], audit := [] }

/-- C3: when the target record exists and its stored updated_at or
created_at is strictly later than the local timestamp, detect returns
exactly the newer_server_version conflict carrying the server timestamp
(updated_at, falling back to created_at) and the local timestamp; the
concurrent-modification check is not consulted. -/
theorem detect_newer_server_version (db : ServerDB) (fault : StorageFault)
    (t : String) (r : Int) (l : Timestamp) (opty : String) (rec : ServerRecord)
    (hfault : fault.serverQueryRaises = false)
    (hrec : findRecord db.records t r = some rec)
    (hnewer : (optLater rec.updated_at l || optLater rec.created_at l) = true) :
    detect_sync_conflicts db fault t (some r) l opty =
      some (ConflictResult.newerServerVersion
        (rec.updated_at.orElse fun _ => rec.created_at) l) := by
  have hrows : serverVersionRows db.records t (some r) l = [rec] := by
    simp [serverVersionRows, hrec, hnewer]
  simp [detect_sync_conflicts, hfault, hrows]

/-- C3 witness: on dbDetectNewer the detector reports newer_server_version
with server timestamp 200 and local timestamp 100, even though a later
pending operation for the same record is also present. -/
theorem detect_newer_server_version_witness :
    detect_sync_conflicts dbDetectNewer ⟨false, false⟩ "patients" (some 42) 100 "UPDATE" =
      some (ConflictResult.newerServerVersion
        (recNewer.updated_at.orElse fun _ => recNewer.created_at) 100) :=
  detect_newer_server_version dbDetectNewer ⟨false, false⟩ "patients" 42 100 "UPDATE"
    recNewer rfl (by decide) (by decide)

/-- C4: when neither storage query raises, the server-version query returns
no row, and some pending ledger operation for the same (table, record) has
a strictly later local timestamp, detect returns the
concurrent_modification conflict carrying the count of such pending
operations. -/
theorem detect_concurrent_modification (db : ServerDB) (fault : StorageFault)
    (t : String) (r : Int) (l : Timestamp) (opty : String) (row : LedgerRow)
    (hf1 : fault.serverQueryRaises = false)
    (hf2 : fault.pendingQueryRaises = false)
    (hnoNewer : serverVersionRows db.records t (some r) l = [])
    (hrow : row ∈ db.ledger) (ht : row.table_name = t)
    (hr : row.record_id = some r) (hl : l < row.local_timestamp)
    (hp : row.sync_status = "Pending") :
    detect_sync_conflicts db fault t (some r) l opty =
      some (ConflictResult.concurrentModification (pendingCount db.ledger t (some r) l))
    ∧ 0 < pendingCount db.ledger t (some r) l := by
  have hmem : row ∈ db.ledger.filter (fun row =>
      decide (row.table_name = t ∧ row.record_id = some r ∧
              l < row.local_timestamp ∧ row.sync_status = "Pending")) :=
    List.mem_filter.mpr ⟨hrow, by simp [ht, hr, hl, hp]⟩
  have hpos : 0 < pendingCount db.ledger t (some r) l := by
    unfold pendingCount
    exact List.length_pos.mpr (List.ne_nil_of_mem hmem)
  refine ⟨?_, hpos⟩
  simp [detect_sync_conflicts, hf1, hf2, hnoNewer, hpos]

/-- C4 witness: on dbDetectConc (server record older, one later pending
operation) the detector reports concurrent_modification with count 1. -/
theorem detect_concurrent_modification_witness :
    detect_sync_conflicts dbDetectConc ⟨false, false⟩ "patients" (some 42) 100 "UPDATE" =
      some (ConflictResult.concurrentModification
        (pendingCount dbDetectConc.ledger "patients" (some 42) 100))
    ∧ 0 < pendingCount dbDetectConc.ledger "patients" (some 42) 100 :=
  detect_concurrent_modification dbDetectConc ⟨false, false⟩ "patients" 42 100 "UPDATE"
    rowPend rfl rfl (by decide) (by decide) rfl rfl (by decide) rfl

/-- C7: a storage error raised in the server-version query, or raised in
the pending-operations query when the server-version query found nothing,
makes detect return no-conflict (fail-open) instead of propagating. -/
theorem detect_fail_open (db : ServerDB) (fault : StorageFault)
    (t : String) (rid : Option Int) (l : Timestamp) (opty : String)
    (h : fault.serverQueryRaises = true ∨
         (fault.pendingQueryRaises = true ∧ serverVersionRows db.records t rid l = [])) :
    detect_sync_conflicts db fault t rid l opty = none := by
  unfold detect_sync_conflicts
  rcases h with h1 | ⟨h2, h3⟩
  · rw [h1]; simp
  · cases hq : fault.serverQueryRaises
    · simp [h3, h2]
    · simp

/-- C7 witness: with the server-version query raising, detection on
dbDetectNewer (which otherwise reports a conflict) yields no-conflict. -/
theorem detect_fail_open_witness :
    detect_sync_conflicts dbDetectNewer ⟨true, false⟩ "patients" (some 42) 100 "UPDATE" = none :=
  detect_fail_open dbDetectNewer ⟨true, false⟩ "patients" (some 42) 100 "UPDATE" (Or.inl rfl)

/-- Helper: folding any operation list through batchStep never increments
processed, never appends a conflict, never hands an operation to the Sync
Processor, and counts every operation as failed. -/
theorem batchStep_foldl_profile (ops : List BatchOp) (acc : BatchAcc) :
    (ops.foldl batchStep acc).processed = acc.processed
    ∧ (ops.foldl batchStep acc).failed = acc.failed + ops.length
    ∧ (ops.foldl batchStep acc).conflicts = acc.conflicts
    ∧ (ops.foldl batchStep acc).handed = acc.handed := by
  induction ops generalizing acc with
  | nil => simp
  | cons op rest ih =>
    have hstep : (batchStep acc op).processed = acc.processed
        ∧ (batchStep acc op).failed = acc.failed + 1
        ∧ (batchStep acc op).conflicts = acc.conflicts
        ∧ (batchStep acc op).handed = acc.handed := by
      unfold batchStep; split <;> simp
    obtain ⟨h1, h2, h3, h4⟩ := ih (batchStep acc op)
    refine ⟨?_, ?_, ?_, ?_⟩
    · rw [List.foldl_cons, h1, hstep.1]
    · rw [List.foldl_cons, h2, hstep.2.1]
      simp only [List.length_cons]
      omega
    · rw [List.foldl_cons, h3, hstep.2.2.1]
    · rw [List.foldl_cons, h4, hstep.2.2.2]

/-- C1: evaluation of batch_sync_upload at a batch holding one fully valid
operation.  The claim (and the spec) expect the operation to be
conflict-checked and ledgered, giving processed = 1, failed = 0; the code
instead evaluates the unbound name self at line 878, so the operation is
counted failed with the NameError message and nothing is processed. -/
theorem batch_upload_nameerror_eval :
    batch_sync_upload "device-1"
      [{ table_name := some "patients", record_id := some 42,
         operation_type := some "UPDATE",
         local_timestamp := some "2024-01-01T10:00:00" }] false =
      Except.ok
        ({ success := true,
           summary := { processed := 0, failed := 1, conflicts := 0,
                        total_operations := 1 },
           conflicts := [], errors := [nameErrorSelf] }, []) := by
  rfl

/-- C2 counterexample: with force_overwrite = true, an operation carrying
every required field (so it passes field validation) is nevertheless not
handed to the Sync Processor: the handed list is empty and the operation
is counted failed, refuting the claim that every validated operation
reaches the Sync Processor under force_overwrite. -/
theorem batch_force_overwrite_counterexample :
    (truthyStr (some "patients") && truthyStr (some "UPDATE") &&
       truthyStr (some "2024-01-01T10:00:00")) = true
    ∧ batch_sync_upload "device-1"
        [{ table_name := some "patients", record_id := some 42,
           operation_type := some "UPDATE",
           local_timestamp := some "2024-01-01T10:00:00" }] true =
        Except.ok
          ({ success := true,
             summary := { processed := 0, failed := 1, conflicts := 0,
                          total_operations := 1 },
             conflicts := [], errors := [nameErrorSelf] }, []) :=
  ⟨rfl, rfl⟩

/-- C2 amended: for every well-formed batch upload with force_overwrite =
true, the returned conflicts list is empty and no operation is handed to
the Sync Processor; every operation (validated or not) is counted failed
and none is processed, because the conflict-detection call site raises
NameError for each validated operation regardless of force_overwrite. -/
theorem batch_force_overwrite_profile (device_id : String) (operations : List BatchOp)
    (hd : device_id ≠ "") (hops : operations ≠ []) :
    (batch_sync_upload device_id operations true).map
        (fun p => (p.1.conflicts, p.2, p.1.summary.processed, p.1.summary.failed)) =
      Except.ok ([], [], 0, operations.length) := by
  unfold batch_sync_upload
  rw [if_neg (by simp [hd, hops])]
  obtain ⟨h1, h2, h3, h4⟩ := batchStep_foldl_profile operations
    { processed := 0, failed := 0, conflicts := [], errors := [], handed := [] }
  simp [Except.map, h1, h2, h3, h4]

/-- C2 amended witness: instantiation at a one-element batch of a fully
valid operation for device d. -/
theorem batch_force_overwrite_profile_witness :
    (batch_sync_upload "d"
        [{ table_name := some "patients", record_id := some 1,
           operation_type := some "INSERT", local_timestamp := some "t1" }] true).map
        (fun p => (p.1.conflicts, p.2, p.1.summary.processed, p.1.summary.failed)) =
      Except.ok ([], [], 0, 1) := by
  simpa using batch_force_overwrite_profile "d"
    [{ table_name := some "patients", record_id := some 1,
       operation_type := some "INSERT", local_timestamp := some "t1" }]
    (by decide) (by decide)

/-- Ledger row id 7 currently in Conflict status, synced_at unset; concrete
input for the resolution-handler theorems. -/
def rowConflict : LedgerRow :=
  { id := 7, table_name := "patients", record_id := some 42,
    operation_type := "UPDATE", sync_status := "Conflict", device_id := "d1",
    user_id := 3, local_timestamp := 100, server_timestamp := 150,
    retry_count := 0, last_retry_at := none, error_message := none,
    synced_at := none }

/-- Concrete database for the resolution-handler theorems. -/
def dbResolve : ServerDB :=
  { records := [("patients", 42, recOlder)], ledger := [rowConflict], audit := [] }

/-- C5: when conflict_id and resolution pass the presence check but no
ledger row has that id with sync_status Conflict, resolve returns the 404
NotFound outcome and the whole database (ledger included) is returned
unchanged. -/
theorem resolve_notfound_no_mutation (db : ServerDB) (cid : Int) (res : String)
    (now : Timestamp) (hcid : cid ≠ 0) (hres : res ≠ "")
    (hmiss : ∀ row ∈ db.ledger, ¬(row.id = cid ∧ row.sync_status = "Conflict")) :
    resolve_sync_conflict db (some cid) (some res) now =
      (ResolveResult.notFound "Conflict not found", db) := by
  have hfilter : db.ledger.filter
      (fun row => decide (row.id = cid ∧ row.sync_status = "Conflict")) = [] := by
    rw [List.filter_eq_nil_iff]
    intro a ha
    simpa using hmiss a ha
  simp only [resolve_sync_conflict]
  rw [if_neg (by simp [hcid, hres]), hfilter]

/-- C5 witness: resolving id 8 against a database whose only Conflict row
has id 7 yields NotFound and leaves the database untouched. -/
theorem resolve_notfound_no_mutation_witness :
    resolve_sync_conflict dbResolve (some 8) (some "use_server") 500 =
      (ResolveResult.notFound "Conflict not found", dbResolve) :=
  resolve_notfound_no_mutation dbResolve 8 "use_server" 500
    (by decide) (by decide) (by decide)

/-- C6: resolving an existing Conflict-status ledger row with use_server
returns the success message, leaves every business record unchanged, and
rewrites the ledger so that exactly the rows with the given id get
sync_status Resolved and synced_at stamped with now, all their other
fields and all other rows unchanged. -/
theorem resolve_use_server_effect (db : ServerDB) (cid : Int) (now : Timestamp)
    (row : LedgerRow) (hcid : cid ≠ 0) (hrow : row ∈ db.ledger)
    (hid : row.id = cid) (hst : row.sync_status = "Conflict") :
    (resolve_sync_conflict db (some cid) (some "use_server") now).1 =
      ResolveResult.resolved "Conflict resolved using use_server strategy"
    ∧ (resolve_sync_conflict db (some cid) (some "use_server") now).2.records = db.records
    ∧ (resolve_sync_conflict db (some cid) (some "use_server") now).2.ledger =
        db.ledger.map (fun r =>
          if r.id = cid then { r with sync_status := "Resolved", synced_at := some now }
          else r) := by
  have hmem : row ∈ db.ledger.filter
      (fun r => decide (r.id = cid ∧ r.sync_status = "Conflict")) :=
    List.mem_filter.mpr ⟨hrow, by simp [hid, hst]⟩
  cases hf : db.ledger.filter (fun r => decide (r.id = cid ∧ r.sync_status = "Conflict")) with
  | nil =>
    rw [hf] at hmem
    simp at hmem
  | cons cd rest =>
    simp only [resolve_sync_conflict]
    rw [if_neg (by simp [hcid]), hf]
    simp [setLedgerStatus]

/-- C6 witness: instantiation at dbResolve, conflict id 7, time 500. -/
theorem resolve_use_server_effect_witness :
    (resolve_sync_conflict dbResolve (some 7) (some "use_server") 500).1 =
      ResolveResult.resolved "Conflict resolved using use_server strategy"
    ∧ (resolve_sync_conflict dbResolve (some 7) (some "use_server") 500).2.records =
        dbResolve.records
    ∧ (resolve_sync_conflict dbResolve (some 7) (some "use_server") 500).2.ledger =
        dbResolve.ledger.map (fun r =>
          if r.id = 7 then { r with sync_status := "Resolved", synced_at := some 500 }
          else r) :=
  resolve_use_server_effect dbResolve 7 500 rowConflict
    (by decide) (by decide) rfl rfl

/-- C10: resolving an existing Conflict-status ledger row with a resolution
string that is none of use_server, use_local, merge still returns the 200
success message naming that strategy and appends an audit entry recording
it, while the ledger is left entirely unchanged (so the row keeps
sync_status Conflict and its synced_at value). -/
theorem resolve_unknown_strategy (db : ServerDB) (cid : Int) (res : String)
    (now : Timestamp) (row : LedgerRow)
    (hcid : cid ≠ 0) (hres : res ≠ "")
    (h1 : res ≠ "use_server") (h2 : res ≠ "use_local") (h3 : res ≠ "merge")
    (hrow : row ∈ db.ledger) (hid : row.id = cid) (hst : row.sync_status = "Conflict") :
    (resolve_sync_conflict db (some cid) (some res) now).1 =
      ResolveResult.resolved ("Conflict resolved using " ++ res ++ " strategy")
    ∧ (resolve_sync_conflict db (some cid) (some res) now).2.ledger = db.ledger
    ∧ ∃ e, (resolve_sync_conflict db (some cid) (some res) now).2.audit = db.audit ++ [e]
        ∧ e.action = "RESOLVE_CONFLICT" ∧ e.new_resolution = some res := by
  have hmem : row ∈ db.ledger.filter
      (fun r => decide (r.id = cid ∧ r.sync_status = "Conflict")) :=
    List.mem_filter.mpr ⟨hrow, by simp [hid, hst]⟩
  cases hf : db.ledger.filter (fun r => decide (r.id = cid ∧ r.sync_status = "Conflict")) with
  | nil =>
    rw [hf] at hmem
    simp at hmem
  | cons cd rest =>
    simp only [resolve_sync_conflict]
    rw [if_neg (by simp [hcid, hres]), hf]
    refine ⟨by simp [h1, h2, h3], by simp [h1, h2, h3], resolveAudit cid res cd, ?_, rfl, rfl⟩
    simp [h1, h2, h3]

/-- C10 witness: resolving id 7 with the unknown strategy frobnicate
succeeds, changes no ledger row, and audits the strategy name. -/
theorem resolve_unknown_strategy_witness :
    (resolve_sync_conflict dbResolve (some 7) (some "frobnicate") 500).1 =
      ResolveResult.resolved ("Conflict resolved using " ++ "frobnicate" ++ " strategy")
    ∧ (resolve_sync_conflict dbResolve (some 7) (some "frobnicate") 500).2.ledger =
        dbResolve.ledger
    ∧ ∃ e, (resolve_sync_conflict dbResolve (some 7) (some "frobnicate") 500).2.audit =
          dbResolve.audit ++ [e]
        ∧ e.action = "RESOLVE_CONFLICT" ∧ e.new_resolution = some "frobnicate" :=
  resolve_unknown_strategy dbResolve 7 "frobnicate" 500 rowConflict
    (by decide) (by decide) (by decide) (by decide) (by decide)
    (by decide) rfl rfl

/-- Queued operation whose finalization raises; concrete input for the
worker theorems. -/
def opFail : QueueOp :=
  { table_name := some "patients", operation_type := some "INSERT",
    sync_id := some 5, finalize_raises := true }

/-- Pending ledger row that opFail would finalize. -/
def rowPending5 : LedgerRow :=
  { id := 5, table_name := "patients", record_id := some 42,
    operation_type := "INSERT", sync_status := "Pending", device_id := "d1",
    user_id := 3, local_timestamp := 100, server_timestamp := 150,
    retry_count := 0, last_retry_at := none, error_message := none,
    synced_at := none }

/-- Concrete worker state: one device whose single queued operation fails
to finalize. -/
def stWorker : SyncManagerState :=
  { pending_operations := [("d1", [opFail])], ledger := [rowPending5] }

/-- Helper: after a drain pass, every queue holds exactly the operations
beyond the first 10 it held before, for every device. -/
theorem drainDevices_queues (now : Timestamp) (devs : List (String × List QueueOp))
    (ledger : List LedgerRow) :
    (drainDevices now devs ledger).1 = devs.map (fun p => (p.1, p.2.drop 10)) := by
  induction devs generalizing ledger with
  | nil => rfl
  | cons q rest ih =>
    obtain ⟨d, ops⟩ := q
    by_cases h : ops = []
    · subst h
      simp [drainDevices, ih]
    · simp [drainDevices, h, ih]

/-- Helper: every per-device batch attempted during a drain pass has at
most 10 operations. -/
theorem drainDevices_batch_le (now : Timestamp) (devs : List (String × List QueueOp))
    (ledger : List LedgerRow) :
    ∀ p ∈ (drainDevices now devs ledger).2.2, p.2.length ≤ 10 := by
  induction devs generalizing ledger with
  | nil =>
    intro p hp
    simp [drainDevices] at hp
  | cons q rest ih =>
    obtain ⟨d, ops⟩ := q
    intro p hp
    by_cases h : ops = []
    · subst h
      simp only [drainDevices, if_pos rfl] at hp
      exact ih ledger p hp
    · simp only [drainDevices, if_neg h, List.mem_cons] at hp
      rcases hp with hp | hp
      · rw [hp]
        exact List.length_take_le 10 ops
      · exact ih _ p hp

/-- Helper: a ledger row not targeted by the finalizing update of any
non-raising operation of the batch survives sync_device_operations
unchanged. -/
theorem syncOps_preserves_row (now : Timestamp) (ops : List QueueOp)
    (ledger : List LedgerRow) (row : LedgerRow) (hrow : row ∈ ledger)
    (h : ∀ op ∈ ops, op.finalize_raises = false → op.sync_id ≠ some row.id) :
    row ∈ sync_device_operations now ledger ops := by
  induction ops generalizing ledger with
  | nil => simpa [sync_device_operations]
  | cons op rest ih =>
    have hstep : row ∈ syncOneOp now ledger op := by
      unfold syncOneOp
      cases hr : op.finalize_raises with
      | true => simpa using hrow
      | false =>
        simp only [Bool.false_eq_true, if_false]
        have hne : op.sync_id ≠ some row.id := h op (by simp) hr
        have hfix : (fun (r : LedgerRow) =>
            if some r.id = op.sync_id then
              { r with sync_status := "Synced", synced_at := some now }
            else r) row = row := by
          simp only []
          rw [if_neg]
          intro hc
          exact hne hc.symm
        have := List.mem_map_of_mem (fun (r : LedgerRow) =>
            if some r.id = op.sync_id then
              { r with sync_status := "Synced", synced_at := some now }
            else r) hrow
        rwa [hfix] at this
    have hrest : ∀ o ∈ rest, o.finalize_raises = false → o.sync_id ≠ some row.id :=
      fun o ho => h o (by simp [ho])
    simpa [sync_device_operations] using ih (syncOneOp now ledger op) hstep hrest

/-- Helper: a ledger row not targeted by any non-raising queued operation
survives a whole drain pass unchanged. -/
theorem drainDevices_preserves_row (now : Timestamp)
    (devs : List (String × List QueueOp)) (ledger : List LedgerRow)
    (row : LedgerRow) (hrow : row ∈ ledger)
    (h : ∀ p ∈ devs, ∀ op ∈ p.2, op.finalize_raises = false → op.sync_id ≠ some row.id) :
    row ∈ (drainDevices now devs ledger).2.1 := by
  induction devs generalizing ledger with
  | nil => simpa [drainDevices]
  | cons q rest ih =>
    obtain ⟨d, ops⟩ := q
    have hrest : ∀ p ∈ rest, ∀ op ∈ p.2, op.finalize_raises = false →
        op.sync_id ≠ some row.id :=
      fun p hp => h p (by simp [hp])
    by_cases hq : ops = []
    · subst hq
      simp only [drainDevices, if_pos rfl]
      exact ih ledger hrow hrest
    · have hbatch : row ∈ sync_device_operations now ledger (ops.take 10) := by
        refine syncOps_preserves_row now (ops.take 10) ledger row hrow ?_
        intro op hop
        exact h (d, ops) (by simp) op (List.mem_of_mem_take hop)
      simp only [drainDevices, if_neg hq]
      exact ih (sync_device_operations now ledger (ops.take 10)) hbatch hrest

/-- C9: in one tick of the Auto-Sync Worker, every per-device batch handed
to sync_device_operations has at most 10 operations, and every device
queue afterwards holds exactly the operations beyond its first 10. -/
theorem auto_sync_batch_cap (st : SyncManagerState) (now : Timestamp) :
    (∀ p ∈ (process_pending_syncs st now).2, p.2.length ≤ 10)
    ∧ (process_pending_syncs st now).1.pending_operations =
        st.pending_operations.map (fun p => (p.1, p.2.drop 10)) := by
  refine ⟨fun p hp => ?_, ?_⟩
  · exact drainDevices_batch_le now st.pending_operations st.ledger p
      (by simpa [process_pending_syncs] using hp)
  · simpa [process_pending_syncs] using
      drainDevices_queues now st.pending_operations st.ledger

/-- C8 counterexample: device d1 holds one operation whose finalization
raises; after the tick the queue of d1 is empty, so the failed operation
did not remain queued for retry, while its ledger row is still the
untouched Pending row. -/
theorem auto_sync_retry_counterexample :
    opFail.finalize_raises = true
    ∧ (process_pending_syncs stWorker 700).1.pending_operations = [("d1", [])]
    ∧ (process_pending_syncs stWorker 700).1.ledger = [rowPending5] :=
  ⟨rfl, rfl, rfl⟩

/-- C8 amended: in one tick, every drained operation leaves its device
queue (the queue keeps exactly the operations beyond the first 10, whether
or not the drained ones finalized), and a ledger row not targeted by any
successfully finalizing queued operation survives unchanged; in particular
the Pending row of an operation that fails to finalize stays Pending, but
the operation itself is not retried from the queue. -/
theorem auto_sync_failed_op_dropped (st : SyncManagerState) (now : Timestamp)
    (row : LedgerRow) (hrow : row ∈ st.ledger)
    (h : ∀ p ∈ st.pending_operations, ∀ op ∈ p.2,
        op.finalize_raises = false → op.sync_id ≠ some row.id) :
    (process_pending_syncs st now).1.pending_operations =
      st.pending_operations.map (fun p => (p.1, p.2.drop 10))
    ∧ row ∈ (process_pending_syncs st now).1.ledger := by
  refine ⟨?_, ?_⟩
  · simpa [process_pending_syncs] using
      drainDevices_queues now st.pending_operations st.ledger
  · simpa [process_pending_syncs] using
      drainDevices_preserves_row now st.pending_operations st.ledger row hrow h

/-- C8 amended witness: instantiation at stWorker, whose single queued
operation fails to finalize; the queue is drained anyway and the Pending
row survives. -/
theorem auto_sync_failed_op_dropped_witness :
    (process_pending_syncs stWorker 700).1.pending_operations =
      stWorker.pending_operations.map (fun p => (p.1, p.2.drop 10))
    ∧ rowPending5 ∈ (process_pending_syncs stWorker 700).1.ledger :=
  auto_sync_failed_op_dropped stWorker 700 rowPending5 (by decide) (by decide)
